import Mathlib

/-!
Shallow embedding of the Mood DJ playlist agent.

Sources embedded:
* `src/src/tools.ts` — the tool implementations (`addSong`, `getSongsByMood`,
  `recommendSongs`, `confirmAddRecommendedSongs`, `createSpotifyPlaylist`)
  together with the module-level store helpers (`ensurePlaylists`,
  `getOrCreatePlaylist`).
* `src/src/workflows.ts` — `PlaylistWorkflow.run`.

Modelling conventions:
* JavaScript arrays become Lean lists; in-place mutation becomes explicit
  state passing (the module-level `globalPlaylists` array is threaded as a
  `Store` value, and an agent object is represented by the state of its
  `playlists` property).
* A thrown JavaScript `TypeError` is modelled as `Except.error ()`.
* The external Spotify HTTP boundary is modelled by a `Catalog` environment
  (the responses the service would give) plus an explicit trace of the calls
  issued, so that "no external call happens" is a provable statement.
-/

namespace MoodDJ

/-- Embedding of the `SongEntry` interface of tools.ts: a title and an
optional artist (`artist?: string`). -/
structure SongEntry where
  title : String
  artist : Option String
deriving DecidableEq

/-- Embedding of the `Playlist` interface of tools.ts: a mood label and the
ordered list of songs. -/
structure Playlist where
  mood : String
  songs : List SongEntry
deriving DecidableEq

/-- The contents of a playlists array (such as the module-level
`globalPlaylists` array of tools.ts). -/
abbrev Store := List Playlist

/-- State of the `playlists` property of an agent object: the property can be
missing, it can alias the module-level `globalPlaylists` array (the assignment
performed by `ensurePlaylists`), or it can hold the agent's own array. -/
inductive PlaylistsField
  | absent
  | globalRef
  | ownRef (s : Store)
deriving DecidableEq

/-- An agent context is identified, for the purposes of this module, by the
state of its `playlists` property. -/
abbrev AgentCtx := PlaylistsField

/-- Embedding of `ensurePlaylists` (tools.ts lines 23-28): when the agent has
no `playlists` property, the property is set to the module-level
`globalPlaylists` array (so it now aliases the global array); otherwise the
agent is left as is. -/
def ensurePlaylists : AgentCtx → AgentCtx
  | .absent => .globalRef
  | a => a

/-- Dereference the agent's `playlists` property: `g` is the current contents
of the module-level `globalPlaylists` array, which the property may alias. -/
def readPlaylists (a : AgentCtx) (g : Store) : Store :=
  match a with
  | .ownRef s => s
  | _ => g

/-- Write back through the agent's `playlists` property: a mutation of the
array the property aliases updates the global array exactly when the property
refers to it. Returns the updated agent and updated global array. -/
def writePlaylists (a : AgentCtx) (g : Store) (s : Store) : AgentCtx × Store :=
  match a with
  | .ownRef _ => (.ownRef s, g)
  | x => (x, s)

/-- The playlists array a tool call operates on: every tool first runs
`ensurePlaylists(agent)` and then reads `agent.playlists`. -/
def playlistsView (a : AgentCtx) (g : Store) : Store :=
  readPlaylists (ensurePlaylists a) g

/-- Embedding of JavaScript `toLowerCase()`: charwise lowercasing (adequate
for the character range exercised by this program). -/
def lowercase (s : String) : String :=
  ⟨s.data.map Char.toLower⟩

/-- The case-insensitive mood comparison used by every lookup in tools.ts:
`p.mood.toLowerCase() === mood.toLowerCase()`. -/
def moodMatches (mood : String) (p : Playlist) : Bool :=
  lowercase p.mood == lowercase mood

/-- The lookup `playlists.find((p) => p.mood.toLowerCase() === mood.toLowerCase())`. -/
def findPlaylist (ps : Store) (mood : String) : Option Playlist :=
  ps.find? (moodMatches mood)

/-- Embedding of `getOrCreatePlaylist` (tools.ts lines 31-41), restricted to
its effect on the playlists array: case-insensitive lookup; when absent, a
fresh `{mood, songs: []}` is pushed onto the array. Returns the updated array
and the playlist the function returns (which in JavaScript is a reference to
the entry stored in the array). -/
def getOrCreatePlaylist (ps : Store) (mood : String) : Store × Playlist :=
  match ps.find? (moodMatches mood) with
  | some p => (ps, p)
  | none => (ps ++ [⟨mood, []⟩], ⟨mood, []⟩)

/-- Effect on the playlists array of `getOrCreatePlaylist(agent, mood)`
followed by `playlist.songs.push(...songs)`: the push mutates, through the
returned reference, the first entry whose mood matches case-insensitively, or
the freshly appended entry when no entry matched. -/
def pushToPlaylist (ps : Store) (mood : String) (songs : List SongEntry) : Store :=
  match ps with
  | [] => [⟨mood, songs⟩]
  | p :: rest =>
    if moodMatches mood p then ⟨p.mood, p.songs ++ songs⟩ :: rest
    else p :: pushToPlaylist rest mood songs

/-- JavaScript truthiness of the optional artist string, as used in the
template `${s.artist ? ` by ${s.artist}` : ""}`: `undefined` and the empty
string are both falsy. Returns the rendered suffix. -/
def artistSuffix : Option String → String
  | some ar => if ar.isEmpty then "" else " by " ++ ar
  | none => ""

/-- Rendering of one song in `getSongsByMood`:
`"${s.title}"${s.artist ? ` by ${s.artist}` : ""}`. -/
def fmtSong (s : SongEntry) : String :=
  "\"" ++ s.title ++ "\"" ++ artistSuffix s.artist

/-- Embedding of the `addSong` tool (tools.ts lines 44-58). -/
def addSong (title : String) (artist : Option String) (mood : String)
    (a : AgentCtx) (g : Store) : AgentCtx × Store × String :=
  let a₁ := ensurePlaylists a
  let ps := readPlaylists a₁ g
  let ps₁ := pushToPlaylist ps mood [⟨title, artist⟩]
  let (a₂, g₂) := writePlaylists a₁ g ps₁
  (a₂, g₂,
    "Added \"" ++ title ++ "\"" ++ artistSuffix artist
      ++ " to your \"" ++ mood ++ "\" playlist.")

/-- Embedding of the `getSongsByMood` tool (tools.ts lines 61-81). The
"not found" guard (lines 73-75) is commented out in the source, so when no
playlist matches, `playlist.songs` dereferences `undefined` and throws a
`TypeError`, modelled as `Except.error ()`. -/
def getSongsByMood (mood : String) (a : AgentCtx) (g : Store) :
    AgentCtx × Store × Except Unit String :=
  let a₁ := ensurePlaylists a
  let ps := readPlaylists a₁ g
  match ps.find? (moodMatches mood) with
  | none => (a₁, g, .error ())
  | some p => (a₁, g, .ok (String.intercalate ", " (p.songs.map fmtSong)))

/-- Result of the `recommendSongs` tool: either a plain message string or the
`{ type: "llm_prompt", prompt, mood, playlist }` object. -/
inductive RecommendResult
  | message (s : String)
  | llmPrompt (prompt : String) (mood : String) (playlist : Playlist)
deriving DecidableEq

/-- Rendering of one song line inside the recommendation prompt:
`- "${s.title}"${s.artist ? ` by ${s.artist}` : ""}`. -/
def promptLine (s : SongEntry) : String :=
  "- \"" ++ s.title ++ "\"" ++ artistSuffix s.artist

/-- The template literal built by `recommendSongs` (tools.ts lines 101-109),
with the exact whitespace of the source. -/
def buildPrompt (mood : String) (songs : List SongEntry) : String :=
  "\n      You are recommending songs similar to the user\x27s \"" ++ mood
    ++ "\" playlist:\n      "
    ++ String.intercalate "\n" (songs.map promptLine)
    ++ "\n\n      "
    ++ "Generate 3 similar song recommendations"
    ++ " and ask the user: \n      \"Do you want to add them to your "
    ++ mood ++ " playlist? "
    ++ "Reply yes or no."
    ++ "\"\n    "

/-- Embedding of the `recommendSongs` tool (tools.ts lines 84-113). -/
def recommendSongs (mood : String) (a : AgentCtx) (g : Store) :
    AgentCtx × Store × RecommendResult :=
  let a₁ := ensurePlaylists a
  let ps := readPlaylists a₁ g
  match ps.find? (moodMatches mood) with
  | none =>
    (a₁, g, .message ("You don\x27t have any songs in your \"" ++ mood ++ "\" playlist yet."))
  | some p =>
    if p.songs.isEmpty then
      (a₁, g, .message ("You don\x27t have any songs in your \"" ++ mood ++ "\" playlist yet."))
    else
      (a₁, g, .llmPrompt (buildPrompt mood p.songs) mood p)

/-- JavaScript truthiness of the `confirm` argument as received by the tool:
`undefined` (the argument was not supplied) and `false` are falsy. -/
def confirmTruthy : Option Bool → Bool
  | some true => true
  | _ => false

/-- Embedding of the `confirmAddRecommendedSongs` tool (tools.ts lines
116-138). The guard `if (!confirm) return "No songs were added."` runs before
any store access, so a falsy confirmation performs no mutation at all. -/
def confirmAddRecommendedSongs (confirm : Option Bool)
    (recommendedSongs : List SongEntry) (mood : String)
    (a : AgentCtx) (g : Store) : AgentCtx × Store × String :=
  if confirmTruthy confirm then
    let a₁ := ensurePlaylists a
    let ps := readPlaylists a₁ g
    let ps₁ := pushToPlaylist ps mood recommendedSongs
    let (a₂, g₂) := writePlaylists a₁ g ps₁
    (a₂, g₂,
      "Added " ++ toString recommendedSongs.length
        ++ " songs to your \"" ++ mood ++ "\" playlist.")
  else (a, g, "No songs were added.")

/-- One HTTP request issued by `createSpotifyPlaylist` against the Spotify
API, abstracted to the data that varies. -/
inductive CatalogCall
  | getMe
  | createPlaylist (name description : String)
  | search (query : String)
  | addTracks (playlistId : String) (uris : List String)
deriving DecidableEq

/-- The responses of the external catalog service during one run: the account
id returned by `GET /me`, the id and public URL of the playlist returned by
the create call, and for each search query the URI of the first track of the
response, if any (`searchData.tracks.items[0]`). -/
structure Catalog where
  userId : String
  createdPlaylistId : String
  createdPlaylistUrl : String
  firstTrackUri : String → Option String

/-- The search query built for one song (tools.ts line 185):
`song.artist ? `${song.title} ${song.artist}` : song.title` — JavaScript
truthiness, so an empty artist string falls into the title-only branch. -/
def searchQuery (s : SongEntry) : String :=
  match s.artist with
  | some ar => if ar.isEmpty then s.title else s.title ++ " " ++ ar
  | none => s.title

/-- The search loop of `createSpotifyPlaylist` (tools.ts lines 183-195):
for each song in stored order, issue one search and keep the first returned
track URI, if any. Returns the collected URIs and the trace of search calls,
both in stored order. -/
def searchLoop (env : Catalog) : List SongEntry → List String × List CatalogCall
  | [] => ([], [])
  | s :: rest =>
    let q := searchQuery s
    let (uris, calls) := searchLoop env rest
    (match env.firstTrackUri q with
      | some u => u :: uris
      | none => uris,
     CatalogCall.search q :: calls)

/-- Embedding of the `createSpotifyPlaylist` tool (tools.ts lines 141-213),
on the happy path of the external service (failure propagation is outside
this model). Returns the updated agent and global store, the result string,
and the trace of external calls issued. -/
def createSpotifyPlaylist (env : Catalog) (mood playlistName : String)
    (a : AgentCtx) (g : Store) : AgentCtx × Store × String × List CatalogCall :=
  let a₁ := ensurePlaylists a
  let ps := readPlaylists a₁ g
  match ps.find? (moodMatches mood) with
  | none => (a₁, g, "No songs found in your \"" ++ mood ++ "\" playlist.", [])
  | some p =>
    if p.songs.isEmpty then
      (a₁, g, "No songs found in your \"" ++ mood ++ "\" playlist.", [])
    else
      let res := searchLoop env p.songs
      let calls := CatalogCall.getMe
        :: CatalogCall.createPlaylist playlistName
             ("Playlist generated from your \"" ++ mood ++ "\" songs")
        :: res.2
        ++ (if res.1.isEmpty then [] else [CatalogCall.addTracks env.createdPlaylistId res.1])
      (a₁, g,
        "Spotify playlist \"" ++ playlistName ++ "\" created! Listen here: "
          ++ env.createdPlaylistUrl,
        calls)

/-- Outcome of one `PlaylistWorkflow.run` invocation: the value returned (or
the error thrown, as `Except.error`), the final agent and global store, and
the trace of external catalog calls issued. -/
structure RunOutcome where
  result : Except Unit String
  agent : AgentCtx
  globalStore : Store
  calls : List CatalogCall

/-- Embedding of `PlaylistWorkflow.run` (workflows.ts lines 12-44).

Step 1 calls `getSongsByMood`, whose result is a string; the guard
`!recommendedSongs || recommendedSongs.length === 0` is string emptiness.

Step 2 calls `confirmAddRecommendedSongs.execute({ songs: recommendedSongs })`:
the tool's `confirm`, `recommendedSongs` and `mood` parameters are all absent
(`undefined`) in that object, so the `!confirm` guard fires first and the
remaining arguments are never used — placeholders are passed for them here.
The guard `!confirmed` then tests emptiness of the returned string.

Step 3 calls `createSpotifyPlaylist`. -/
def runPlaylistWorkflow (env : Catalog) (mood playlistName : String)
    (a : AgentCtx) (g : Store) : RunOutcome :=
  match getSongsByMood mood a g with
  | (a₁, g₁, .error e) => ⟨.error e, a₁, g₁, []⟩
  | (a₁, g₁, .ok recommended) =>
    if recommended.isEmpty then
      ⟨.ok ("No songs found for mood \"" ++ mood ++ "\"."), a₁, g₁, []⟩
    else
      let (a₂, g₂, confirmed) := confirmAddRecommendedSongs none [] "" a₁ g₁
      if confirmed.isEmpty then
        ⟨.ok "Playlist creation canceled by user.", a₂, g₂, []⟩
      else
        let (a₃, g₃, res, calls) := createSpotifyPlaylist env mood playlistName a₂ g₂
        ⟨.ok res, a₃, g₃, calls⟩

/-- The songs currently stored for a mood in a playlists array (empty when no
playlist matches). -/
def songsOf (ps : Store) (mood : String) : List SongEntry :=
  match findPlaylist ps mood with
  | some p => p.songs
  | none => []

/-- Boolean check of the store invariant: no two entries of the playlists
array have case-insensitively equal moods. -/
def storeUniqueB : Store → Bool
  | [] => true
  | p :: rest =>
    rest.all (fun q => lowercase p.mood != lowercase q.mood) && storeUniqueB rest

/-- A catalog environment whose search never finds a track. -/
def envNoHits : Catalog :=
  ⟨"user1", "pid1", "https://open.spotify.com/playlist/pid1", fun _ => none⟩

/-- Catalog environment for the workflow scenario: the only resolving query is
the one built from the stored song of the "Happy" playlist. -/
def envC1 : Catalog :=
  ⟨"user1", "pl1", "https://open.spotify.com/playlist/pl1",
    fun q => if q == "Song A Artist A" then some "spotify:track:1" else none⟩

/-- Store for the workflow scenario: one "Happy" playlist with one song. -/
def gC1 : Store := [⟨"Happy", [⟨"Song A", some "Artist A"⟩]⟩]

/-- Catalog environment for the publisher scenario: only the query of the
first stored song resolves to a track. -/
def envC7 : Catalog :=
  ⟨"user1", "pid1", "https://open.spotify.com/playlist/pid1",
    fun q => if q == "A X" then some "spotify:track:1" else none⟩

/-- Store for the publisher scenario: a 2-song "Chill" playlist where only the
first song will resolve a search match. -/
def gC7 : Store := [⟨"Chill", [⟨"A", some "X"⟩, ⟨"B", none⟩]⟩]

/-! Helper lemmas about the store operations. -/

theorem ensurePlaylists_idem (a : AgentCtx) :
    ensurePlaylists (ensurePlaylists a) = ensurePlaylists a := by
  cases a <;> rfl

theorem readPlaylists_writePlaylists (a : AgentCtx) (g s : Store) :
    readPlaylists (writePlaylists a g s).1 (writePlaylists a g s).2 = s := by
  cases a <;> rfl

theorem find?_moodMatches_congr (ps : Store) {m₁ m₂ : String}
    (h : lowercase m₁ = lowercase m₂) :
    ps.find? (moodMatches m₂) = ps.find? (moodMatches m₁) := by
  have hf : moodMatches m₂ = moodMatches m₁ := by
    funext p
    unfold moodMatches
    rw [← h]
  rw [hf]

theorem findPlaylist_pushToPlaylist_self (ps : Store) (mood : String)
    (ss : List SongEntry) :
    findPlaylist (pushToPlaylist ps mood ss) mood
      = some (match findPlaylist ps mood with
          | some p => ⟨p.mood, p.songs ++ ss⟩
          | none => ⟨mood, ss⟩) := by
  induction ps with
  | nil => simp [findPlaylist, pushToPlaylist, moodMatches]
  | cons p rest ih =>
    by_cases hp : moodMatches mood p = true
    · have hp' : moodMatches mood (⟨p.mood, p.songs ++ ss⟩ : Playlist) = true := hp
      simp [findPlaylist, pushToPlaylist, hp, List.find?_cons_of_pos _ hp,
        List.find?_cons_of_pos _ hp']
    · have hb : moodMatches mood p = false := by
        simpa using hp
      simp only [findPlaylist] at ih
      simp [findPlaylist, pushToPlaylist, hb, List.find?_cons_of_neg, ih]

theorem pushToPlaylist_append (ps : Store) (mood : String)
    (ss₁ ss₂ : List SongEntry) :
    pushToPlaylist (pushToPlaylist ps mood ss₁) mood ss₂
      = pushToPlaylist ps mood (ss₁ ++ ss₂) := by
  induction ps with
  | nil => simp [pushToPlaylist, moodMatches]
  | cons p rest ih =>
    by_cases hp : moodMatches mood p = true
    · have hp' : moodMatches mood (⟨p.mood, p.songs ++ ss₁⟩ : Playlist) = true := hp
      simp [pushToPlaylist, hp, hp', List.append_assoc]
    · have hb : moodMatches mood p = false := by
        simpa using hp
      simp [pushToPlaylist, hb, ih]

theorem storeUniqueB_append_singleton (ps : Store) (x : Playlist)
    (h : storeUniqueB ps = true)
    (hx : ∀ p ∈ ps, (lowercase p.mood != lowercase x.mood) = true) :
    storeUniqueB (ps ++ [x]) = true := by
  induction ps with
  | nil => simp [storeUniqueB]
  | cons p rest ih =>
    simp only [storeUniqueB, Bool.and_eq_true] at h
    simp only [List.cons_append, storeUniqueB, Bool.and_eq_true]
    constructor
    · simp only [List.all_eq_true] at h ⊢
      intro q hq
      rcases List.mem_append.mp hq with hq | hq
      · exact h.1 q hq
      · rw [List.mem_singleton.mp hq]
        exact hx p (List.mem_cons_self _ _)
    · exact ih h.2 (fun q hq => hx q (List.mem_cons_of_mem _ hq))

theorem storeUniqueB_getOrCreatePlaylist (ps : Store) (mood : String)
    (h : storeUniqueB ps = true) :
    storeUniqueB (getOrCreatePlaylist ps mood).1 = true := by
  unfold getOrCreatePlaylist
  cases hf : ps.find? (moodMatches mood) with
  | some p => simpa using h
  | none =>
    have hall := List.find?_eq_none.mp hf
    simp only []
    refine storeUniqueB_append_singleton ps _ h (fun p hp => ?_)
    have hb : moodMatches mood p = false := by
      have := hall p hp
      simpa using this
    unfold moodMatches at hb
    simp [bne, hb]

theorem searchLoop_spec (env : Catalog) (ss : List SongEntry) :
    searchLoop env ss
      = (ss.filterMap (fun s => env.firstTrackUri (searchQuery s)),
         ss.map (fun s => CatalogCall.search (searchQuery s))) := by
  induction ss with
  | nil => rfl
  | cons s rest ih =>
    cases h : env.firstTrackUri (searchQuery s) <;>
      simp [searchLoop, ih, h, List.filterMap_cons]

theorem playlistsView_writeThrough (a : AgentCtx) (g s : Store) :
    playlistsView (writePlaylists (ensurePlaylists a) g s).1
        (writePlaylists (ensurePlaylists a) g s).2 = s := by
  cases a <;> rfl

theorem playlistsView_addSong (title : String) (artist : Option String)
    (mood : String) (a : AgentCtx) (g : Store) :
    playlistsView (addSong title artist mood a g).1 (addSong title artist mood a g).2.1
      = pushToPlaylist (playlistsView a g) mood [⟨title, artist⟩] := by
  cases a <;> rfl

theorem playlistsView_confirmTrue (recommendedSongs : List SongEntry)
    (mood : String) (a : AgentCtx) (g : Store) :
    playlistsView (confirmAddRecommendedSongs (some true) recommendedSongs mood a g).1
        (confirmAddRecommendedSongs (some true) recommendedSongs mood a g).2.1
      = pushToPlaylist (playlistsView a g) mood recommendedSongs := by
  cases a <;> rfl

theorem getSongsByMood_eq (mood : String) (a : AgentCtx) (g : Store) :
    (getSongsByMood mood a g).2.2
      = match findPlaylist (playlistsView a g) mood with
        | none => Except.error ()
        | some p => Except.ok (String.intercalate ", " (p.songs.map fmtSong)) := by
  simp only [getSongsByMood, playlistsView, findPlaylist]
  cases h : (readPlaylists (ensurePlaylists a) g).find? (moodMatches mood) <;> simp [h]

theorem recommendSongs_eq (mood : String) (a : AgentCtx) (g : Store) :
    (recommendSongs mood a g).2.2
      = match findPlaylist (playlistsView a g) mood with
        | none =>
          .message ("You don\x27t have any songs in your \"" ++ mood ++ "\" playlist yet.")
        | some p =>
          if p.songs.isEmpty then
            .message ("You don\x27t have any songs in your \"" ++ mood ++ "\" playlist yet.")
          else .llmPrompt (buildPrompt mood p.songs) mood p := by
  simp only [recommendSongs, playlistsView, findPlaylist]
  cases h : (readPlaylists (ensurePlaylists a) g).find? (moodMatches mood) with
  | none => simp [h]
  | some p => by_cases hs : p.songs.isEmpty <;> simp [h, hs]

theorem createSpotifyPlaylist_eq (env : Catalog) (mood playlistName : String)
    (a : AgentCtx) (g : Store) :
    (createSpotifyPlaylist env mood playlistName a g).2.2
      = match findPlaylist (playlistsView a g) mood with
        | none => ("No songs found in your \"" ++ mood ++ "\" playlist.", [])
        | some p =>
          if p.songs.isEmpty then
            ("No songs found in your \"" ++ mood ++ "\" playlist.", [])
          else
            ("Spotify playlist \"" ++ playlistName ++ "\" created! Listen here: "
               ++ env.createdPlaylistUrl,
             CatalogCall.getMe
               :: CatalogCall.createPlaylist playlistName
                    ("Playlist generated from your \"" ++ mood ++ "\" songs")
               :: (searchLoop env p.songs).2
               ++ (if (searchLoop env p.songs).1.isEmpty then []
                   else [CatalogCall.addTracks env.createdPlaylistId
                           (searchLoop env p.songs).1])) := by
  simp only [createSpotifyPlaylist, playlistsView, findPlaylist]
  cases h : (readPlaylists (ensurePlaylists a) g).find? (moodMatches mood) with
  | none => simp [h]
  | some p => by_cases hs : p.songs.isEmpty <;> simp [h, hs]

/-! Claim theorems. -/

/-- Claim C4: `getOrCreatePlaylist` is case-insensitive and idempotent — a
second call with a mood equal up to case returns the same playlist and leaves
the store unchanged; starting from a store with at most one playlist per
case-insensitive mood, any sequence of calls preserves that invariant; and a
creating call stores the mood string verbatim (first-seen casing) by appending
`(mood, [])` at the end of the store. -/
theorem claim_C4_findOrCreate_case_insensitive_idempotent :
    (∀ (ps : Store) (m₁ m₂ : String), lowercase m₁ = lowercase m₂ →
        getOrCreatePlaylist (getOrCreatePlaylist ps m₁).1 m₂ = getOrCreatePlaylist ps m₁)
    ∧ (∀ (g : Store) (ms : List String), storeUniqueB g = true →
        storeUniqueB (ms.foldl (fun s m => (getOrCreatePlaylist s m).1) g) = true)
    ∧ (∀ (ps : Store) (m : String), findPlaylist ps m = none →
        getOrCreatePlaylist ps m = (ps ++ [⟨m, []⟩], ⟨m, []⟩)) := by
  refine ⟨?_, ?_, ?_⟩
  · intro ps m₁ m₂ h
    cases h₁ : ps.find? (moodMatches m₁) with
    | some p =>
      have e₁ : getOrCreatePlaylist ps m₁ = (ps, p) := by
        unfold getOrCreatePlaylist
        rw [h₁]
      rw [e₁]
      unfold getOrCreatePlaylist
      rw [find?_moodMatches_congr ps h, h₁]
    | none =>
      have e₁ : getOrCreatePlaylist ps m₁ = (ps ++ [⟨m₁, []⟩], ⟨m₁, []⟩) := by
        unfold getOrCreatePlaylist
        rw [h₁]
      rw [e₁]
      unfold getOrCreatePlaylist
      have hpos : moodMatches m₂ (⟨m₁, []⟩ : Playlist) = true := by
        simp [moodMatches, h]
      rw [List.find?_append, find?_moodMatches_congr ps h, h₁]
      simp [List.find?_cons_of_pos _ hpos]
  · intro g ms h
    induction ms generalizing g with
    | nil => simpa using h
    | cons m rest ih =>
      simp only [List.foldl_cons]
      exact ih _ (storeUniqueB_getOrCreatePlaylist g m h)
  · intro ps m h
    unfold findPlaylist at h
    unfold getOrCreatePlaylist
    rw [h]

/-- Witness for claim C4: the `"Happy"` / `"happy"` pair of the spec, a
concrete call sequence, and first-seen casing on the empty store. -/
theorem claim_C4_witness :
    getOrCreatePlaylist (getOrCreatePlaylist [] "Happy").1 "happy"
        = getOrCreatePlaylist [] "Happy"
    ∧ storeUniqueB ((["Happy", "happy", "HAPPY", "Chill"] : List String).foldl
        (fun s m => (getOrCreatePlaylist s m).1) []) = true
    ∧ getOrCreatePlaylist ([] : Store) "Happy" = ([⟨"Happy", []⟩], ⟨"Happy", []⟩) :=
  ⟨claim_C4_findOrCreate_case_insensitive_idempotent.1 [] "Happy" "happy" (by decide),
   claim_C4_findOrCreate_case_insensitive_idempotent.2.1 [] ["Happy", "happy", "HAPPY", "Chill"] (by decide),
   claim_C4_findOrCreate_case_insensitive_idempotent.2.2 [] "Happy" (by decide)⟩

/-- Claim C5: a falsy confirmation (`confirm = false`) makes
`confirmAddRecommendedSongs` return the "No songs were added."
acknowledgement and leave the agent and the store completely untouched (no
playlist is created and no song list changes, for every store state, song
list and mood). -/
theorem claim_C5_confirm_false_no_mutation (recommendedSongs : List SongEntry)
    (mood : String) (a : AgentCtx) (g : Store) :
    confirmAddRecommendedSongs (some false) recommendedSongs mood a g
      = (a, g, "No songs were added.") := rfl

/-- Claim C6: a confirmed call appends all recommended songs, in their given
order, at the end of the case-insensitively matching playlist — creating the
playlist (with the given mood) when absent — and returns the count-bearing
acknowledgement; the empty list is accepted and reported as "Added 0 songs". -/
theorem claim_C6_confirm_true_appends_in_order (recommendedSongs : List SongEntry)
    (mood : String) (a : AgentCtx) (g : Store) :
    (confirmAddRecommendedSongs (some true) recommendedSongs mood a g).2.2
      = "Added " ++ toString recommendedSongs.length
          ++ " songs to your \"" ++ mood ++ "\" playlist."
    ∧ findPlaylist
        (playlistsView (confirmAddRecommendedSongs (some true) recommendedSongs mood a g).1
          (confirmAddRecommendedSongs (some true) recommendedSongs mood a g).2.1) mood
      = some (match findPlaylist (playlistsView a g) mood with
          | some p => ⟨p.mood, p.songs ++ recommendedSongs⟩
          | none => ⟨mood, recommendedSongs⟩) := by
  constructor
  · cases a <;> rfl
  · rw [playlistsView_confirmTrue, findPlaylist_pushToPlaylist_self]

/-- Claim C3: an agent context without its own `playlists` property is bound
by `ensurePlaylists` to the module-level `globalPlaylists` array, so a song
added through `addSong` in one such context is observable through
`getSongsByMood` in any other such context (sessions without their own store
are not isolated from one another). -/
theorem claim_C3_global_store_shared_across_contexts (g : Store)
    (mood title : String) (artist : Option String) :
    ensurePlaylists PlaylistsField.absent = PlaylistsField.globalRef
    ∧ (getSongsByMood mood PlaylistsField.absent
          (addSong title artist mood PlaylistsField.absent g).2.1).2.2
      = Except.ok (String.intercalate ", "
          ((songsOf g mood ++ [SongEntry.mk title artist]).map fmtSong)) := by
  refine ⟨rfl, ?_⟩
  rw [getSongsByMood_eq]
  have hg : (addSong title artist mood PlaylistsField.absent g).2.1
      = pushToPlaylist g mood [⟨title, artist⟩] := rfl
  rw [hg]
  have hv : playlistsView PlaylistsField.absent (pushToPlaylist g mood [⟨title, artist⟩])
      = pushToPlaylist g mood [⟨title, artist⟩] := rfl
  rw [hv, findPlaylist_pushToPlaylist_self]
  cases hf : findPlaylist g mood <;> simp [songsOf, hf]

/-- Claim C10: three successive `addSong` calls for the same mood append the
songs at the end of that mood's playlist in call order, so a subsequent
`getSongsByMood` read renders exactly the previous songs followed by the
three new ones, in order. -/
theorem claim_C10_addSong_preserves_insertion_order (a : AgentCtx) (g : Store)
    (mood : String) (s₁ s₂ s₃ : SongEntry) :
    (let st₁ := addSong s₁.title s₁.artist mood a g
     let st₂ := addSong s₂.title s₂.artist mood st₁.1 st₁.2.1
     let st₃ := addSong s₃.title s₃.artist mood st₂.1 st₂.2.1
     (getSongsByMood mood st₃.1 st₃.2.1).2.2)
      = Except.ok (String.intercalate ", "
          ((songsOf (playlistsView a g) mood ++ [s₁, s₂, s₃]).map fmtSong)) := by
  dsimp only
  rw [getSongsByMood_eq]
  rw [playlistsView_addSong, playlistsView_addSong, playlistsView_addSong]
  rw [pushToPlaylist_append, pushToPlaylist_append]
  rw [findPlaylist_pushToPlaylist_self]
  cases hf : findPlaylist (playlistsView a g) mood <;> simp [songsOf, hf]

/-- Claim C9: when the mood's playlist is absent or empty, `recommendSongs`
returns the terminal "no songs in this mood yet" message (and hence no
recommendation context); when it is non-empty, it returns the llm-prompt
context that carries the full ordered stored playlist, and whose prompt
requests 3 recommendations and asks a yes/no question. -/
theorem claim_C9_recommendSongs_empty_terminal_and_context :
    (∀ (mood : String) (a : AgentCtx) (g : Store),
        songsOf (playlistsView a g) mood = [] →
        (recommendSongs mood a g).2.2
          = .message ("You don\x27t have any songs in your \"" ++ mood
              ++ "\" playlist yet."))
    ∧ (∀ (mood : String) (a : AgentCtx) (g : Store) (p : Playlist),
        findPlaylist (playlistsView a g) mood = some p → p.songs ≠ [] →
        (recommendSongs mood a g).2.2 = .llmPrompt (buildPrompt mood p.songs) mood p
        ∧ ∃ t₁ t₂ t₃, buildPrompt mood p.songs
            = t₁ ++ "Generate 3 similar song recommendations" ++ t₂
                ++ "Reply yes or no." ++ t₃) := by
  constructor
  · intro mood a g h
    rw [recommendSongs_eq]
    unfold songsOf at h
    cases hf : findPlaylist (playlistsView a g) mood with
    | none => rfl
    | some p =>
      rw [hf] at h
      have hp : p.songs = [] := h
      simp [hp]
  · intro mood a g p hf hne
    have hne' : p.songs.isEmpty = false := by
      cases hs : p.songs with
      | nil => exact absurd hs hne
      | cons x xs => rfl
    rw [recommendSongs_eq, hf]
    refine ⟨by simp [hne'], ?_⟩
    refine ⟨"\n      You are recommending songs similar to the user\x27s \"" ++ mood
        ++ "\" playlist:\n      "
        ++ String.intercalate "\n" (p.songs.map promptLine)
        ++ "\n\n      ",
      " and ask the user: \n      \"Do you want to add them to your "
        ++ mood ++ " playlist? ",
      "\"\n    ", ?_⟩
    unfold buildPrompt
    simp only [String.append_assoc]

/-- Witness for claim C9: the spec's `recommendSongs("Sad")` scenario on a
store with no "Sad" playlist, and the non-empty "Happy" scenario. -/
theorem claim_C9_witness :
    ((recommendSongs "Sad" PlaylistsField.absent []).2.2
        = .message ("You don\x27t have any songs in your \"Sad\" playlist yet."))
    ∧ ((recommendSongs "Happy" PlaylistsField.absent
            [⟨"Happy", [⟨"A", some "X"⟩]⟩]).2.2
          = .llmPrompt (buildPrompt "Happy" [⟨"A", some "X"⟩]) "Happy"
              ⟨"Happy", [⟨"A", some "X"⟩]⟩
        ∧ ∃ t₁ t₂ t₃, buildPrompt "Happy" [⟨"A", some "X"⟩]
            = t₁ ++ "Generate 3 similar song recommendations" ++ t₂
                ++ "Reply yes or no." ++ t₃) :=
  ⟨claim_C9_recommendSongs_empty_terminal_and_context.1 "Sad" PlaylistsField.absent [] rfl,
   claim_C9_recommendSongs_empty_terminal_and_context.2 "Happy" PlaylistsField.absent
     [⟨"Happy", [⟨"A", some "X"⟩]⟩] ⟨"Happy", [⟨"A", some "X"⟩]⟩ (by decide) (by decide)⟩

/-- Claim C8: when the mood's playlist is absent or has no songs,
`createSpotifyPlaylist` returns the "No songs found" terminal message and
issues no external catalog call of any kind (the call trace is empty). -/
theorem claim_C8_publisher_empty_no_external_calls (env : Catalog)
    (mood playlistName : String) (a : AgentCtx) (g : Store)
    (h : songsOf (playlistsView a g) mood = []) :
    (createSpotifyPlaylist env mood playlistName a g).2.2.1
        = "No songs found in your \"" ++ mood ++ "\" playlist."
    ∧ (createSpotifyPlaylist env mood playlistName a g).2.2.2 = [] := by
  unfold songsOf at h
  rw [createSpotifyPlaylist_eq]
  cases hf : findPlaylist (playlistsView a g) mood with
  | none => exact ⟨rfl, rfl⟩
  | some p =>
    rw [hf] at h
    have hp : p.songs = [] := h
    simp [hp]

/-- Witness for claim C8: an empty "Chill" playlist with a live environment. -/
theorem claim_C8_witness :
    (createSpotifyPlaylist envNoHits "Chill" "List" PlaylistsField.absent
          [⟨"Chill", []⟩]).2.2.1
        = "No songs found in your \"Chill\" playlist."
    ∧ (createSpotifyPlaylist envNoHits "Chill" "List" PlaylistsField.absent
          [⟨"Chill", []⟩]).2.2.2 = [] :=
  claim_C8_publisher_empty_no_external_calls envNoHits "Chill" "List"
    PlaylistsField.absent [⟨"Chill", []⟩] rfl

/-- Counterexample to claim C7 as stated: for a song whose artist field is
present but the empty string, the code issues the query `"<title>"`, not
`"<title> <artist>"` (JavaScript truthiness treats the empty string as
absent), so "query `<title> <artist>` when an artist is present" fails. -/
theorem claim_C7_counterexample :
    ((⟨"T", some ""⟩ : SongEntry).artist.isSome = true)
    ∧ (createSpotifyPlaylist envNoHits "m" "List" PlaylistsField.absent
          [⟨"m", [⟨"T", some ""⟩]⟩]).2.2.2
        = [CatalogCall.getMe,
           CatalogCall.createPlaylist "List" "Playlist generated from your \"m\" songs",
           CatalogCall.search "T"]
    ∧ CatalogCall.search ("T" ++ " " ++ "")
        ∉ (createSpotifyPlaylist envNoHits "m" "List" PlaylistsField.absent
            [⟨"m", [⟨"T", some ""⟩]⟩]).2.2.2 := by
  refine ⟨rfl, rfl, by decide⟩

/-- Claim C7 (amended: a present-but-empty artist string is treated as
absent): for a non-empty mood playlist, the publisher issues one search per
stored song in stored order with query `"<title> <artist>"` when a non-empty
artist is present and `"<title>"` otherwise, keeps the first match of each
search, silently skips unresolved songs, and attaches exactly the resolved
tracks, in resolution order, in a single batch call (omitted when zero
resolved — still a success result either way). -/
theorem claim_C7_publisher_search_and_batch_attach (env : Catalog)
    (mood playlistName : String) (a : AgentCtx) (g : Store) (p : Playlist)
    (hf : findPlaylist (playlistsView a g) mood = some p) (hne : p.songs ≠ []) :
    (createSpotifyPlaylist env mood playlistName a g).2.2.2
      = CatalogCall.getMe
        :: CatalogCall.createPlaylist playlistName
             ("Playlist generated from your \"" ++ mood ++ "\" songs")
        :: p.songs.map (fun s => CatalogCall.search (match s.artist with
              | some ar => if ar.isEmpty then s.title else s.title ++ " " ++ ar
              | none => s.title))
        ++ (if (p.songs.filterMap (fun s => env.firstTrackUri (searchQuery s))).isEmpty
            then []
            else [CatalogCall.addTracks env.createdPlaylistId
                    (p.songs.filterMap (fun s => env.firstTrackUri (searchQuery s)))])
    ∧ (createSpotifyPlaylist env mood playlistName a g).2.2.1
      = "Spotify playlist \"" ++ playlistName ++ "\" created! Listen here: "
          ++ env.createdPlaylistUrl := by
  have hne' : p.songs.isEmpty = false := by
    cases hs : p.songs with
    | nil => exact absurd hs hne
    | cons x xs => rfl
  rw [createSpotifyPlaylist_eq, hf]
  constructor
  · simp [hne', searchLoop_spec, searchQuery]
  · simp [hne']

/-- Witness for claim C7: the spec's 2-song scenario — only the first song
resolves a search match, the remote playlist is still created and exactly one
track is attached. -/
theorem claim_C7_witness :
    (createSpotifyPlaylist envC7 "Chill" "List" PlaylistsField.absent gC7).2.2.2
      = [CatalogCall.getMe,
         CatalogCall.createPlaylist "List" "Playlist generated from your \"Chill\" songs",
         CatalogCall.search "A X",
         CatalogCall.search "B",
         CatalogCall.addTracks "pid1" ["spotify:track:1"]]
    ∧ (createSpotifyPlaylist envC7 "Chill" "List" PlaylistsField.absent gC7).2.2.1
      = "Spotify playlist \"List\" created! Listen here: https://open.spotify.com/playlist/pid1" :=
  claim_C7_publisher_search_and_batch_attach envC7 "Chill" "List"
    PlaylistsField.absent gC7 ⟨"Chill", [⟨"A", some "X"⟩, ⟨"B", none⟩]⟩
    (by decide) (by decide)

/-- Claim C1 fails on the code: in `PlaylistWorkflow.run` the confirmation is
never consulted — the confirm step calls the tool without a `confirm`
argument, the tool then returns the non-empty string "No songs were added.",
and the guard `!confirmed` (string emptiness) therefore never fires — so a
run whose external confirmation is false still invokes the Publish step: on a
store with a one-song "Happy" playlist the run creates the remote playlist
and returns the publish success message instead of terminating canceled. -/
theorem claim_C1_workflow_publishes_despite_unconfirmed :
    (runPlaylistWorkflow envC1 "Happy" "My List" PlaylistsField.absent gC1).result
      = Except.ok ("Spotify playlist \"My List\" created! Listen here: https://open.spotify.com/playlist/pl1")
    ∧ (runPlaylistWorkflow envC1 "Happy" "My List" PlaylistsField.absent gC1).calls
      = [CatalogCall.getMe,
         CatalogCall.createPlaylist "My List" "Playlist generated from your \"Happy\" songs",
         CatalogCall.search "Song A Artist A",
         CatalogCall.addTracks "pl1" ["spotify:track:1"]]
    ∧ (runPlaylistWorkflow envC1 "Happy" "My List" PlaylistsField.absent gC1).calls ≠ [] := by
  refine ⟨rfl, rfl, by decide⟩

/-- Claim C2 fails on the code: `getSongsByMood` for a mood with no stored
playlist does not return a "not found" status string — the guard is commented
out in the source, so the code dereferences `undefined` and throws a
`TypeError` (modelled as `Except.error ()`). -/
theorem claim_C2_getSongsByMood_throws_on_missing_playlist :
    getSongsByMood "Sad" PlaylistsField.absent []
      = (PlaylistsField.globalRef, [], Except.error ()) := rfl

end MoodDJ
